import Mathlib

/-!
Shallow embedding of the godaikin bridge (Python) core: types.py, controller.py,
energy.py, auth.py. Pure functions are Lean functions; stateful methods are
explicit state-passing; Python exceptions are `Except` errors; `datetime` values
are rationals (seconds); Python floats are rationals.
-/

set_option maxRecDepth 4096

/-- Association-list update, modelling Python dict assignment `d[k] = v`
(replace the existing binding or append a new one). -/
def alistSet {β : Type} (m : List (String × β)) (k : String) (v : β) : List (String × β) :=
  match m with
  | [] => [(k, v)]
  | (k2, v2) :: rest => if k2 = k then (k, v) :: rest else (k2, v2) :: alistSet rest k v

/-- types.py AircondMode (IntEnum): COOL = 1, FAN_ONLY = 2, DRY = 4. -/
inductive AircondMode
  | COOL
  | FAN_ONLY
  | DRY
deriving DecidableEq

/-- The vendor integer code of each mode (the IntEnum member value). -/
def AircondMode.value : AircondMode → Int
  | .COOL => 1
  | .FAN_ONLY => 2
  | .DRY => 4

/-- Python `AircondMode(v)` value lookup; `none` models the ValueError raised
on a code that is not a member value. -/
def AircondMode.fromValue (v : Int) : Option AircondMode :=
  if v = 1 then some .COOL
  else if v = 2 then some .FAN_ONLY
  else if v = 4 then some .DRY
  else none

/-- The Python enum member name, as in `.name`. -/
def AircondMode.name : AircondMode → String
  | .COOL => "COOL"
  | .FAN_ONLY => "FAN_ONLY"
  | .DRY => "DRY"

/-- types.py FanSpeed (IntEnum): AUTO = 128, UNKNOWN = 1, LOW = 2, MEDIUM = 4, HIGH = 8. -/
inductive FanSpeed
  | AUTO
  | UNKNOWN
  | LOW
  | MEDIUM
  | HIGH
deriving DecidableEq

def FanSpeed.value : FanSpeed → Int
  | .AUTO => 128
  | .UNKNOWN => 1
  | .LOW => 2
  | .MEDIUM => 4
  | .HIGH => 8

/-- Python `FanSpeed(v)` value lookup; `none` models the ValueError on unknown codes. -/
def FanSpeed.fromValue (v : Int) : Option FanSpeed :=
  if v = 128 then some .AUTO
  else if v = 1 then some .UNKNOWN
  else if v = 2 then some .LOW
  else if v = 4 then some .MEDIUM
  else if v = 8 then some .HIGH
  else none

/-- Python `FanSpeed[name]` member-name lookup; `none` models the KeyError on
an unrecognized name. -/
def FanSpeed.fromName (s : String) : Option FanSpeed :=
  match s with
  | "AUTO" => some .AUTO
  | "UNKNOWN" => some .UNKNOWN
  | "LOW" => some .LOW
  | "MEDIUM" => some .MEDIUM
  | "HIGH" => some .HIGH
  | _ => none

def FanSpeed.name : FanSpeed → String
  | .AUTO => "AUTO"
  | .UNKNOWN => "UNKNOWN"
  | .LOW => "LOW"
  | .MEDIUM => "MEDIUM"
  | .HIGH => "HIGH"

/-- types.py AircondSwing (IntEnum): OFF = 0, STEP_1..STEP_5 = 1..5, AUTO = 15. -/
inductive AircondSwing
  | OFF
  | STEP_1
  | STEP_2
  | STEP_3
  | STEP_4
  | STEP_5
  | AUTO
deriving DecidableEq

def AircondSwing.value : AircondSwing → Int
  | .OFF => 0
  | .STEP_1 => 1
  | .STEP_2 => 2
  | .STEP_3 => 3
  | .STEP_4 => 4
  | .STEP_5 => 5
  | .AUTO => 15

/-- Python `AircondSwing(v)` value lookup; `none` models the ValueError on unknown codes. -/
def AircondSwing.fromValue (v : Int) : Option AircondSwing :=
  if v = 0 then some .OFF
  else if v = 1 then some .STEP_1
  else if v = 2 then some .STEP_2
  else if v = 3 then some .STEP_3
  else if v = 4 then some .STEP_4
  else if v = 5 then some .STEP_5
  else if v = 15 then some .AUTO
  else none

/-- Python `AircondSwing[name]` member-name lookup; `none` models the KeyError. -/
def AircondSwing.fromName (s : String) : Option AircondSwing :=
  match s with
  | "OFF" => some .OFF
  | "STEP_1" => some .STEP_1
  | "STEP_2" => some .STEP_2
  | "STEP_3" => some .STEP_3
  | "STEP_4" => some .STEP_4
  | "STEP_5" => some .STEP_5
  | "AUTO" => some .AUTO
  | _ => none

/-- The member name passed through Python `str.title()`, as used by
controller.py for swing payload fields ("STEP_1".title() = "Step_1"). -/
def AircondSwing.nameTitle : AircondSwing → String
  | .OFF => "Off"
  | .STEP_1 => "Step_1"
  | .STEP_2 => "Step_2"
  | .STEP_3 => "Step_3"
  | .STEP_4 => "Step_4"
  | .STEP_5 => "Step_5"
  | .AUTO => "Auto"

/-- types.py AircondPreset (str Enum). -/
inductive AircondPreset
  | NONE
  | COMFORT
  | ECO
  | BOOST
  | SLEEP
deriving DecidableEq

/-- The string value of each preset member. -/
def AircondPreset.value : AircondPreset → String
  | .NONE => "none"
  | .COMFORT => "comfort"
  | .ECO => "eco"
  | .BOOST => "boost"
  | .SLEEP => "sleep"

/-- Python `AircondPreset(s)` value lookup; `none` models the ValueError caught
by Controller.handle_set_preset_mode. -/
def AircondPreset.fromValue (s : String) : Option AircondPreset :=
  match s with
  | "none" => some .NONE
  | "comfort" => some .COMFORT
  | "eco" => some .ECO
  | "boost" => some .BOOST
  | "sleep" => some .SLEEP
  | _ => none

/-- Python str.lower() (ASCII, which covers the vendor thing-names). Written
over the character list so it reduces by kernel computation. -/
def pyLower (s : String) : String :=
  String.mk (s.data.map Char.toLower)

/-- Python str.upper() (ASCII, which covers the command payload values). -/
def pyUpper (s : String) : String :=
  String.mk (s.data.map Char.toUpper)

/-- Character-list splitter underlying the Python `str.split(sep)` model. -/
def splitChar (sep : Char) : List Char → List (List Char)
  | [] => [[]]
  | c :: rest =>
    match splitChar sep rest with
    | [] => [[]]
    | grp :: grps => if c = sep then [] :: grp :: grps else (c :: grp) :: grps

/-- Python `s.split(sep)` for a single-character separator. -/
def pySplit (s : String) (sep : Char) : List String :=
  (splitChar sep s.data).map String.mk

/-- types.py ShadowState, restricted to the fields read by the controller,
energy counter and the claims; every field defaults to 0 / "" as in the source
dataclass. Values are opaque vendor codes (Python ints / strings). -/
structure ShadowState where
  Set_Breeze : Int := 0
  Set_Ecoplus : Int := 0
  Set_Fan : Int := 0
  Set_LEDOff : Int := 0
  Set_LRLvr : Int := 0
  Set_Mode : Int := 0
  Set_OnOff : Int := 0
  Set_Sleep : Int := 0
  Set_Temp : Int := 0
  Set_Turbo : Int := 0
  Set_UDLvr : Int := 0
  Sta_IDRoomTemp : Int := 0
  Sta_ODAirTemp : Int := 0
  Sta_ODPwrCon : Int := 0
  eventType : String := ""
deriving DecidableEq

/-- types.py Aircond, restricted to the fields the modelled operations read. -/
structure Aircond where
  ACName : String := ""
  ThingName : String := ""
  shadowState : ShadowState := {}
deriving DecidableEq

/-- Aircond.is_on property: Set_OnOff == 1. -/
def Aircond.is_on (a : Aircond) : Bool :=
  a.shadowState.Set_OnOff == 1

/-- Aircond.unique_id property: the ThingName, lower-cased. -/
def Aircond.unique_id (a : Aircond) : String :=
  pyLower a.ThingName

/-- Aircond.is_connected property: eventType == "connected". -/
def Aircond.is_connected (a : Aircond) : Bool :=
  a.shadowState.eventType == "connected"

/-- Aircond.mode property (types.py): maps the mode code through the enum,
falling back to "Unknown" when the code is not a member value. -/
def Aircond.mode (a : Aircond) : String :=
  match AircondMode.fromValue a.shadowState.Set_Mode with
  | some m => m.name
  | none => "Unknown"

/-- mqtt.py MQTT_PREFIX. -/
def mqttTopicRoot : String := "godaikin"

/-- mqtt.py DISCOVERY_PREFIX. -/
def discoveryTopicRoot : String := "homeassistant"

/-- mqtt.py BRIDGE_AVAILABILITY_TOPIC. -/
def BRIDGE_AVAILABILITY_TOPIC : String := mqttTopicRoot ++ "/bridge/availability"

/-- types.py AircondMqttTopics. -/
structure AircondMqttTopics where
  base : String
  availability : String
  cmd_mode : String
  cmd_temp : String
  cmd_fan : String
  cmd_swing : String
  cmd_swing_horizontal : String
  cmd_preset : String
  cmd_status_led : String
  status : String
  discovery : String
  sensor : String
deriving DecidableEq

/-- AircondMqttTopics.from_aircond. -/
def AircondMqttTopics.from_aircond (a : Aircond) : AircondMqttTopics :=
  let base := mqttTopicRoot ++ "/" ++ a.unique_id
  { base := base
    availability := base ++ "/availability"
    cmd_mode := base ++ "/set/mode"
    cmd_temp := base ++ "/set/temperature"
    cmd_fan := base ++ "/set/fan_mode"
    cmd_swing := base ++ "/set/swing_mode"
    cmd_swing_horizontal := base ++ "/set/swing_horizontal_mode"
    cmd_preset := base ++ "/set/preset_mode"
    cmd_status_led := base ++ "/set/status_led"
    status := base ++ "/status"
    discovery := discoveryTopicRoot ++ "/climate/" ++ a.unique_id ++ "/config"
    sensor := base ++ "/sensor" }

/-- A JSON scalar as produced by the controller payload dicts. -/
inductive JsonVal
  | s (v : String)
  | i (v : Int)
  | q (v : Rat)
deriving DecidableEq

/-- A published payload: either a plain string or a JSON object
(`json.dumps` of a dict with insertion-ordered fields). Serialization is
modelled as the identity injection: two payloads serialize to the same string
exactly when they are equal. -/
inductive Payload
  | str (s : String)
  | json (fields : List (String × JsonVal))
deriving DecidableEq

/-- One message handed to the bus client (`self.mqtt.publish`). -/
structure SentMessage where
  topic : String
  payload : Payload
  qos : Nat
  retain : Bool
deriving DecidableEq

/-- The publish-relevant controller state: the per-topic payload cache
(payload_cache_by_topic) and the log of messages transmitted on the bus. -/
structure PublishState where
  payload_cache_by_topic : List (String × Payload)
  sent : List SentMessage
deriving DecidableEq

/-- The bus transmission `await self.mqtt.publish(...)`; `busOk = false` models
the transmission raising an error. The Bool result is true when an error was
raised (and propagates to the caller). -/
def transmit (busOk : Bool) (st : PublishState) (topic : String) (payload : Payload)
    (qos : Nat) (retain : Bool) : PublishState × Bool :=
  if busOk then ({ st with sent := st.sent ++ [⟨topic, payload, qos, retain⟩] }, false)
  else (st, true)

/-- Controller.mqtt_publish. When only_if_changed, an identical cached payload
skips transmission entirely; otherwise the cache entry is assigned (source line
345) and then the bus publish is awaited (source line 348). -/
def mqtt_publish (busOk : Bool) (st : PublishState) (topic : String) (payload : Payload)
    (qos : Nat) (retain : Bool) (only_if_changed : Bool) : PublishState × Bool :=
  if only_if_changed then
    let cached_payload := st.payload_cache_by_topic.lookup topic
    if cached_payload = some payload then
      (st, false)
    else
      let st1 := { st with
        payload_cache_by_topic := alistSet st.payload_cache_by_topic topic payload }
      transmit busOk st1 topic payload qos retain
  else
    transmit busOk st topic payload qos retain

/-- energy.py EnergyCounter state: cumulative kWh and last-accumulation
timestamp (seconds), both keyed by unique_id. -/
structure EnergyCounter where
  energy_by_unique_id : List (String × Rat) := []
  energy_accumulated_at_by_unique_id : List (String × Rat) := []
deriving DecidableEq

/-- The "actually on" judgement inside
EnergyCounter.accumulate_energy_usage_for_aircond: is_on AND Set_OnOff == 1 AND
Sta_ODPwrCon > 0. -/
def is_actually_on_for_energy (a : Aircond) : Bool :=
  a.is_on && (a.shadowState.Set_OnOff == 1) && decide (0 < a.shadowState.Sta_ODPwrCon)

/-- EnergyCounter.accumulate_energy_usage_for_aircond; `now` is the dt.now()
reading in seconds. Returns the value returned by the method together with the
updated counter state. -/
def accumulate_energy_usage_for_aircond (ec : EnergyCounter) (now : Rat) (a : Aircond) :
    Rat × EnergyCounter :=
  let accumulated_at := ec.energy_accumulated_at_by_unique_id.lookup a.unique_id
  let ec1 : EnergyCounter := { ec with
    energy_accumulated_at_by_unique_id :=
      alistSet ec.energy_accumulated_at_by_unique_id a.unique_id now }
  match accumulated_at with
  | none => (0, ec1)
  | some t0 =>
    let energy_at_last_accum := (ec1.energy_by_unique_id.lookup a.unique_id).getD 0
    let kilowatts : Rat :=
      if is_actually_on_for_energy a then (a.shadowState.Sta_ODPwrCon : Rat) / 1000 else 0
    let hours_passed_since_last_accum : Rat := (now - t0) / 3600
    let energy_since_last_accum := kilowatts * hours_passed_since_last_accum
    let energy_now := energy_at_last_accum + energy_since_last_accum
    (energy_now, { ec1 with
      energy_by_unique_id := alistSet ec1.energy_by_unique_id a.unique_id energy_now })

/-- EnergyCounter.get_energy_usage. -/
def get_energy_usage (ec : EnergyCounter) (unique_id : String) : Rat :=
  (ec.energy_by_unique_id.lookup unique_id).getD 0

/-- EnergyCounter.reset_energy_if_off: when the device is definitively off
(not is_on and Set_OnOff == 0) and the stored total is positive, zero it. -/
def reset_energy_if_off (ec : EnergyCounter) (a : Aircond) : EnergyCounter :=
  if !a.is_on && (a.shadowState.Set_OnOff == 0) then
    let old_energy := (ec.energy_by_unique_id.lookup a.unique_id).getD 0
    if 0 < old_energy then
      { ec with energy_by_unique_id := alistSet ec.energy_by_unique_id a.unique_id 0 }
    else ec
  else ec

/-- auth.py EXPIRY_BUFFER = timedelta(minutes=5), in seconds. -/
def EXPIRY_BUFFER : Rat := 300

/-- auth.py CognitoToken; expires_at is an absolute time in seconds. -/
structure CognitoToken where
  access_token : String
  id_token : String
  refresh_token : String
  expires_at : Rat
deriving DecidableEq

/-- A provider AuthenticationResult for the USER_PASSWORD_AUTH flow. -/
structure InitAuthResult where
  AccessToken : String
  IdToken : String
  RefreshToken : String
  ExpiresIn : Rat
deriving DecidableEq

/-- A provider AuthenticationResult for the REFRESH_TOKEN_AUTH flow (the source
reads no RefreshToken from it). -/
structure RefreshAuthResult where
  AccessToken : String
  IdToken : String
  ExpiresIn : Rat
deriving DecidableEq

/-- One network exchange against the identity provider (cognito.initiate_auth). -/
inductive AuthExchange
  | initial (username password : String)
  | refreshWith (refresh_token : String)
deriving DecidableEq

/-- AuthClient.init_cognito_token; `none` response models a reply without an
AuthenticationResult (raises AuthError). -/
def init_cognito_token (resp : Option InitAuthResult) (now : Rat) :
    Except String CognitoToken :=
  match resp with
  | none => .error "AuthError"
  | some auth => .ok
      { access_token := auth.AccessToken
        id_token := auth.IdToken
        refresh_token := auth.RefreshToken
        expires_at := now + auth.ExpiresIn }

/-- AuthClient.refresh_jwt_token: the request carries token.refresh_token and
the replacement token reuses that same refresh token. -/
def refresh_jwt_token (token : CognitoToken) (resp : Option RefreshAuthResult) (now : Rat) :
    Except String CognitoToken :=
  match resp with
  | none => .error "AuthError"
  | some auth => .ok
      { access_token := auth.AccessToken
        id_token := auth.IdToken
        refresh_token := token.refresh_token
        expires_at := now + auth.ExpiresIn }

/-- The second half of AuthClient.get_jwt_token: the expiry check and the
refresh exchange. `exchanges` carries the exchanges already performed in this
call; the refresh exchange is appended when it happens. -/
def get_jwt_token_refresh_step (refreshResp : Option RefreshAuthResult) (now : Rat)
    (tok : CognitoToken) (exchanges : List AuthExchange) :
    Except String (String × CognitoToken × List AuthExchange) :=
  if tok.expires_at ≤ now + EXPIRY_BUFFER then
    match refresh_jwt_token tok refreshResp now with
    | .error e => .error e
    | .ok tok2 => .ok (tok2.id_token, tok2, exchanges ++ [AuthExchange.refreshWith tok.refresh_token])
  else
    .ok (tok.id_token, tok, exchanges)

/-- AuthClient.get_jwt_token: `st` is self.token; the result carries the
returned id_token, the new self.token, and the provider exchanges performed. -/
def get_jwt_token (username password : String) (initResp : Option InitAuthResult)
    (refreshResp : Option RefreshAuthResult) (st : Option CognitoToken) (now : Rat) :
    Except String (String × CognitoToken × List AuthExchange) :=
  match st with
  | none =>
    match init_cognito_token initResp now with
    | .error e => .error e
    | .ok tok =>
      get_jwt_token_refresh_step refreshResp now tok [AuthExchange.initial username password]
  | some tok => get_jwt_token_refresh_step refreshResp now tok []

/-- One state-patch request issued to the Device API client. -/
inductive ApiCall
  | turn_off (unique_id : String)
  | set_mode (unique_id : String) (mode : AircondMode)
  | set_preset (unique_id : String) (preset : AircondPreset)
  | set_temperature (unique_id : String) (temperature : Int)
  | set_fan_mode (unique_id : String) (fan : FanSpeed)
  | set_swing (unique_id : String) (swing : AircondSwing) (horizontal : Bool)
  | set_status_led (unique_id : String) (on_flag : Bool)
deriving DecidableEq

/-- Digits-to-Nat helper for the Python float literal parser. -/
def parseDigits (cs : List Char) : Option Nat :=
  if cs = [] then none
  else if cs.all Char.isDigit then
    some (cs.foldl (fun n c => 10 * n + (c.toNat - 48)) 0)
  else none

/-- Python `float(s)` modelled for plain decimal literals (optional sign,
integer digits, optional fractional part, either side of the dot possibly
empty but not both). Exponent/inf/nan forms are not modelled; `none` models
the ValueError raised on everything unparsable. -/
def parsePyFloat (s : String) : Option Rat :=
  let signBody : Int × List Char :=
    match s.data with
    | '-' :: rest => (-1, rest)
    | '+' :: rest => (1, rest)
    | cs => (1, cs)
  match (String.mk signBody.2).splitOn "." with
  | [intPart] =>
    match parseDigits intPart.data with
    | some n => some ((signBody.1 * n : Int) : Rat)
    | none => none
  | [intPart, fracPart] =>
    if intPart.data = [] ∧ fracPart.data = [] then none
    else
      let ip := if intPart.data = [] then some 0 else parseDigits intPart.data
      let fp := if fracPart.data = [] then some 0 else parseDigits fracPart.data
      match ip, fp with
      | some n, some f =>
        some ((signBody.1 : Rat) * ((n : Rat) + (f : Rat) / ((10 : Rat) ^ fracPart.length)))
      | _, _ => none
  | _ => none

/-- Python `int(x)` on a float: truncation toward zero (Int.div is T-division). -/
def truncToInt (q : Rat) : Int :=
  q.num.tdiv (q.den : Int)

/-- Controller.handle_set_mode: known strings patch the device; anything else
is logged and ignored (no API call, no error). -/
def handle_set_mode (unique_id : String) (mode : String) : Except String (List ApiCall) :=
  match mode with
  | "off" => .ok [ApiCall.turn_off unique_id]
  | "cool" => .ok [ApiCall.set_mode unique_id AircondMode.COOL]
  | "dry" => .ok [ApiCall.set_mode unique_id AircondMode.DRY]
  | "fan_only" => .ok [ApiCall.set_mode unique_id AircondMode.FAN_ONLY]
  | _ => .ok []

/-- Controller.handle_set_preset_mode: the ValueError from AircondPreset(s) is
caught and replaced by NONE. -/
def handle_set_preset_mode (unique_id : String) (preset_mode : String) :
    Except String (List ApiCall) :=
  let preset := (AircondPreset.fromValue preset_mode).getD AircondPreset.NONE
  .ok [ApiCall.set_preset unique_id preset]

/-- Controller.handle_set_temperature. -/
def handle_set_temperature (unique_id : String) (temperature : Int) :
    Except String (List ApiCall) :=
  .ok [ApiCall.set_temperature unique_id temperature]

/-- Controller.handle_set_fan_mode: FanSpeed[fan_mode.upper()] — the KeyError
on an unrecognized name is NOT caught and propagates. -/
def handle_set_fan_mode (unique_id : String) (fan_mode : String) :
    Except String (List ApiCall) :=
  match FanSpeed.fromName (pyUpper fan_mode) with
  | some fan => .ok [ApiCall.set_fan_mode unique_id fan]
  | none => .error "KeyError: FanSpeed"

/-- Controller.handle_set_swing: AircondSwing[swing.upper()] — the KeyError is
NOT caught. -/
def handle_set_swing (unique_id : String) (swing : String) : Except String (List ApiCall) :=
  match AircondSwing.fromName (pyUpper swing) with
  | some sw => .ok [ApiCall.set_swing unique_id sw false]
  | none => .error "KeyError: AircondSwing"

/-- Controller.handle_set_swing_horizontal: same lookup, horizontal=True. -/
def handle_set_swing_horizontal (unique_id : String) (swing : String) :
    Except String (List ApiCall) :=
  match AircondSwing.fromName (pyUpper swing) with
  | some sw => .ok [ApiCall.set_swing unique_id sw true]
  | none => .error "KeyError: AircondSwing"

/-- Controller.handle_set_status_led. -/
def handle_set_status_led (unique_id : String) (on_or_off : String) :
    Except String (List ApiCall) :=
  .ok [ApiCall.set_status_led unique_id (on_or_off == "ON")]

/-- Controller.handle_set_message: dispatch on the set key (an unknown key
falls through the match silently), then set the preemption signal. The Bool of
the result is the preemption signal; when a handler raises, the exception
propagates before preempt_state_refresh.set() runs. -/
def handle_set_message (set_key : String) (unique_id : String) (payload : String) :
    Except String (List ApiCall × Bool) :=
  let r : Except String (List ApiCall) :=
    match set_key with
    | "mode" => handle_set_mode unique_id payload
    | "fan_mode" => handle_set_fan_mode unique_id payload
    | "preset_mode" => handle_set_preset_mode unique_id payload
    | "temperature" =>
      match parsePyFloat payload with
      | some q => handle_set_temperature unique_id (truncToInt q)
      | none => .error "ValueError: float"
    | "swing_mode" => handle_set_swing unique_id payload
    | "swing_horizontal_mode" => handle_set_swing_horizontal unique_id payload
    | "status_led" => handle_set_status_led unique_id payload
    | _ => .ok []
  match r with
  | .ok calls => .ok (calls, true)
  | .error e => .error e

/-- Controller.handle_message: unpack `_, unique_id, action, key` from the
topic (a topic without exactly four segments raises ValueError), dispatch
"set" to handle_set_message, log and ignore unknown actions (for which
handle_set_message never runs, so the preemption signal stays clear). -/
def handle_message (topic : String) (payload : String) :
    Except String (List ApiCall × Bool) :=
  match pySplit topic '/' with
  | [_, unique_id, action, key] =>
    match action with
    | "set" => handle_set_message key unique_id payload
    | _ => .ok ([], false)
  | _ => .error "ValueError: unpack"

/-- Python `round(x, 2)` modelled as rounding to the nearest hundredth
(half rounded up; Python's banker's rounding differs only at exact halves,
which no claim depends on). -/
def round2 (q : Rat) : Rat :=
  ((q * 100 + 1 / 2).floor : Rat) / 100

/-- The mode string of Controller.publish_aircond_state: "off" whenever the
power flag is off; otherwise AircondMode(Set_Mode).name.lower(), whose
ValueError on an unknown code propagates. -/
def derived_mode (a : Aircond) : Except String String :=
  if !a.is_on then .ok "off"
  else
    match AircondMode.fromValue a.shadowState.Set_Mode with
    | some m => .ok m.name.toLower
    | none => .error "ValueError: AircondMode"

/-- The preset_mode string of Controller.publish_aircond_state: the four vendor
flags checked in source order Set_Turbo, Set_Breeze, Set_Ecoplus, Set_Sleep
(Python truthiness: any nonzero flag counts as set). -/
def derived_preset_mode (s : ShadowState) : String :=
  if s.Set_Turbo ≠ 0 then AircondPreset.BOOST.value
  else if s.Set_Breeze ≠ 0 then AircondPreset.COMFORT.value
  else if s.Set_Ecoplus ≠ 0 then AircondPreset.ECO.value
  else if s.Set_Sleep ≠ 0 then AircondPreset.SLEEP.value
  else AircondPreset.NONE.value

/-- The power_w computation of Controller.publish_sensor_state: the three
signals (Set_OnOff == 1, is_on property, Sta_ODPwrCon > 0) must all agree for
the raw reading to be reported; otherwise 0. -/
def reported_power (a : Aircond) : Int :=
  let is_set_to_on : Bool := a.shadowState.Set_OnOff == 1
  let is_property_on : Bool := a.is_on
  let has_power_draw : Bool := decide (0 < a.shadowState.Sta_ODPwrCon)
  let is_actually_on : Bool := is_set_to_on && is_property_on && has_power_draw
  if !is_set_to_on || !is_property_on then 0
  else if has_power_draw && is_actually_on then a.shadowState.Sta_ODPwrCon
  else 0

/-- Controller.publish_aircond_state: direct map lookup of the device's topics
(KeyError when absent), mode / preset / fan / swing derivation (enum
ValueErrors propagate), then the change-gated status and availability
publishes. -/
def publish_aircond_state (topicsMap : List (String × AircondMqttTopics)) (busOk : Bool)
    (st : PublishState) (a : Aircond) : Except String PublishState :=
  match topicsMap.lookup a.unique_id with
  | none => .error "KeyError: unique_id"
  | some topics =>
    match derived_mode a with
    | .error e => .error e
    | .ok mode =>
      let preset_mode := derived_preset_mode a.shadowState
      match FanSpeed.fromValue a.shadowState.Set_Fan with
      | none => .error "ValueError: FanSpeed"
      | some fan_mode =>
        match AircondSwing.fromValue a.shadowState.Set_UDLvr with
        | none => .error "ValueError: AircondSwing"
        | some swing_mode =>
          match AircondSwing.fromValue a.shadowState.Set_LRLvr with
          | none => .error "ValueError: AircondSwing"
          | some swing_horizontal_mode =>
            let payload := Payload.json
              [("mode", JsonVal.s mode),
               ("temperature", JsonVal.i a.shadowState.Set_Temp),
               ("current_temperature", JsonVal.i a.shadowState.Sta_IDRoomTemp),
               ("fan_mode", JsonVal.s fan_mode.name.toLower),
               ("swing_mode", JsonVal.s swing_mode.nameTitle),
               ("swing_horizontal_mode", JsonVal.s swing_horizontal_mode.nameTitle),
               ("preset_mode", JsonVal.s preset_mode)]
            let r1 := mqtt_publish busOk st topics.status payload 1 true true
            if r1.2 then .error "MqttError"
            else
              let availability_payload := if a.is_connected then "online" else "offline"
              let r2 := mqtt_publish busOk r1.1 topics.availability
                (Payload.str availability_payload) 1 true true
              if r2.2 then .error "MqttError" else .ok r2.1

/-- Controller.publish_sensor_state: direct topics lookup (KeyError when
absent), reset_energy_if_off, accumulate, then the change-gated sensor publish
carrying the conservatively reported power and the rounded energy. -/
def publish_sensor_state (topicsMap : List (String × AircondMqttTopics)) (busOk : Bool)
    (ec : EnergyCounter) (now : Rat) (st : PublishState) (a : Aircond) :
    Except String (EnergyCounter × PublishState) :=
  match topicsMap.lookup a.unique_id with
  | none => .error "KeyError: unique_id"
  | some topics =>
    let ec1 := reset_energy_if_off ec a
    let r := accumulate_energy_usage_for_aircond ec1 now a
    let power_w := reported_power a
    let payload := Payload.json
      [("Sta_ODPwrCon", JsonVal.i power_w),
       ("Sta_IDRoomTemp", JsonVal.i a.shadowState.Sta_IDRoomTemp),
       ("Sta_ODAirTemp", JsonVal.i a.shadowState.Sta_ODAirTemp),
       ("energy", JsonVal.q (round2 r.1)),
       ("status_led", JsonVal.s (if a.shadowState.Set_LEDOff ≠ 0 then "OFF" else "ON"))]
    let r1 := mqtt_publish busOk st topics.sensor payload 1 true true
    if r1.2 then .error "MqttError" else .ok (r.2, r1.1)

/-- Controller.get_mqtt_topics: memoized topic construction — the only place
that inserts into mqtt_topics_by_unique_id. -/
def get_mqtt_topics (topicsMap : List (String × AircondMqttTopics)) (a : Aircond) :
    AircondMqttTopics × List (String × AircondMqttTopics) :=
  match topicsMap.lookup a.unique_id with
  | some t => (t, topicsMap)
  | none =>
    let t := AircondMqttTopics.from_aircond a
    (t, alistSet topicsMap a.unique_id t)

/-- Controller.refresh_state: for each fetched device, publish control state
then sensor state; any raised error terminates the cycle. -/
def refresh_state (topicsMap : List (String × AircondMqttTopics)) (busOk : Bool) (now : Rat) :
    List Aircond → EnergyCounter → PublishState → Except String (EnergyCounter × PublishState)
  | [], ec, st => .ok (ec, st)
  | a :: rest, ec, st =>
    match publish_aircond_state topicsMap busOk st a with
    | .error e => .error e
    | .ok st1 =>
      match publish_sensor_state topicsMap busOk ec now st1 a with
      | .error e => .error e
      | .ok r => refresh_state topicsMap busOk now rest r.1 r.2

/-- A device that is on with a vendor mode code (3) outside the AircondMode
enumeration. -/
def acBadMode : Aircond :=
  { ThingName := "ac", shadowState := { Set_OnOff := 1, Set_Mode := 3 } }

/-- Concrete devices and counters used as witness inputs. -/
def acFresh : Aircond := { ThingName := "ac", shadowState := { Set_OnOff := 1 } }

/-- A device that is on and drawing 1000 W. -/
def acDrawing : Aircond :=
  { ThingName := "ac", shadowState := { Set_OnOff := 1, Sta_ODPwrCon := 1000 } }

/-- A device that is off while a stale 1000 W reading persists. -/
def acIdle : Aircond :=
  { ThingName := "ac", shadowState := { Set_OnOff := 0, Sta_ODPwrCon := 1000 } }

/-- A definitively-off device (all shadow fields zero). -/
def acOff : Aircond := { ThingName := "ac" }

/-- A counter with 2 kWh stored and a baseline at t = 0 for "ac". -/
def ecTwo : EnergyCounter := ⟨[("ac", 2)], [("ac", 0)]⟩

/-- A counter with 5 kWh stored and a baseline at t = 100 for "ac". -/
def ecFive : EnergyCounter := ⟨[("ac", 5)], [("ac", 100)]⟩

theorem alistSet_lookup_self {β : Type} (m : List (String × β)) (k : String) (v : β) :
    (alistSet m k v).lookup k = some v := by
  induction m with
  | nil => simp [alistSet, List.lookup]
  | cons hd tl ih =>
    obtain ⟨k2, v2⟩ := hd
    by_cases h : k2 = k
    · simp [alistSet, h, List.lookup]
    · simp only [alistSet, if_neg h, List.lookup]
      have : (k == k2) = false := by
        simp [beq_eq_false_iff_ne]
        exact fun hh => h hh.symm
      simp [this, ih]

theorem alistSet_lookup_ne {β : Type} (m : List (String × β)) (k k2 : String) (v : β)
    (h : k2 ≠ k) : (alistSet m k v).lookup k2 = m.lookup k2 := by
  induction m with
  | nil => simp [alistSet, List.lookup, beq_eq_false_iff_ne.mpr h]
  | cons hd tl ih =>
    obtain ⟨k3, v3⟩ := hd
    by_cases h3 : k3 = k
    · subst h3
      simp [alistSet, List.lookup, beq_eq_false_iff_ne.mpr h]
    · simp only [alistSet, if_neg h3, List.lookup]
      by_cases h4 : k2 = k3
      · simp [h4]
      · simp [beq_eq_false_iff_ne.mpr h4, ih]

/-- C7: with only_if_changed, two publishes of identical payloads to a topic
with no cache entry transmit exactly once, and two differing publishes
transmit exactly twice; with only_if_changed = false every call transmits and
leaves the whole cache untouched (equal to an unconditional transmit,
independent of the cache); the cache is keyed per topic, so a publish to one
topic never changes another topic's cache entry. -/
theorem mqtt_publish_change_gating (st : PublishState) (topic t2 : String)
    (p p2 : Payload) (q : Nat) (r : Bool) :
    (st.payload_cache_by_topic.lookup topic = none →
      (mqtt_publish true (mqtt_publish true st topic p q r true).1 topic p q r true).1.sent.length
        = st.sent.length + 1) ∧
    (st.payload_cache_by_topic.lookup topic = none → p ≠ p2 →
      (mqtt_publish true (mqtt_publish true st topic p q r true).1 topic p2 q r true).1.sent.length
        = st.sent.length + 2) ∧
    (mqtt_publish true st topic p q r false =
      ({ st with sent := st.sent ++ [⟨topic, p, q, r⟩] }, false)) ∧
    (∀ b : Bool, topic ≠ t2 →
      (mqtt_publish true st topic p q r b).1.payload_cache_by_topic.lookup t2
        = st.payload_cache_by_topic.lookup t2) := by
  refine ⟨?_, ?_, ?_, ?_⟩
  · intro h
    simp [mqtt_publish, transmit, h, alistSet_lookup_self]
  · intro h hne
    simp [mqtt_publish, transmit, h, alistSet_lookup_self, hne]
  · simp [mqtt_publish, transmit]
  · intro b hne
    cases b with
    | false => simp [mqtt_publish, transmit]
    | true =>
      by_cases hc : st.payload_cache_by_topic.lookup topic = some p
      · simp [mqtt_publish, hc]
      · simp [mqtt_publish, transmit, hc,
          alistSet_lookup_ne st.payload_cache_by_topic topic t2 p (fun hh => hne hh.symm)]

/-- Witness for the change-gating theorem at a concrete state and payloads. -/
theorem mqtt_publish_change_gating_witness :
    ((mqtt_publish true (mqtt_publish true ⟨[], []⟩ "a" (Payload.str "x") 1 true true).1 "a"
        (Payload.str "x") 1 true true).1.sent.length = 0 + 1) ∧
    ((mqtt_publish true (mqtt_publish true ⟨[], []⟩ "a" (Payload.str "x") 1 true true).1 "a"
        (Payload.str "y") 1 true true).1.sent.length = 0 + 2) ∧
    ((mqtt_publish true ⟨[], []⟩ "a" (Payload.str "x") 1 true true).1.payload_cache_by_topic.lookup "b"
      = ([] : List (String × Payload)).lookup "b") := by
  refine ⟨?_, ?_, ?_⟩
  · exact (mqtt_publish_change_gating ⟨[], []⟩ "a" "b" (Payload.str "x") (Payload.str "y") 1 true).1
      rfl
  · exact (mqtt_publish_change_gating ⟨[], []⟩ "a" "b" (Payload.str "x") (Payload.str "y") 1 true).2.1
      rfl (by decide)
  · exact (mqtt_publish_change_gating ⟨[], []⟩ "a" "b" (Payload.str "x") (Payload.str "y") 1 true).2.2.2
      true (by decide)

/-- C3 counterexample: a change-gated publish whose bus transmission fails
(busOk = false) raises the error yet leaves the cache already holding the new
payload — the cache entry is NOT left unchanged on error, because the source
assigns the cache before awaiting the bus publish. -/
theorem mqtt_publish_error_counterexample :
    (mqtt_publish false ⟨[], []⟩ "t" (Payload.str "p") 1 true true).2 = true ∧
    (mqtt_publish false ⟨[], []⟩ "t" (Payload.str "p") 1 true true).1.sent = [] ∧
    (mqtt_publish false ⟨[], []⟩ "t" (Payload.str "p") 1 true true).1.payload_cache_by_topic
      = [("t", Payload.str "p")] := by
  decide

/-- C3 amended: on a change-gated publish of a payload that differs from (or is
absent in) the cache, the cache is assigned the new value BEFORE transmission;
if the bus transmission fails, the error propagates with nothing transmitted
while the cache entry already holds the new payload. -/
theorem mqtt_publish_cache_updated_before_transmit (st : PublishState) (topic : String)
    (p : Payload) (q : Nat) (r : Bool)
    (h : st.payload_cache_by_topic.lookup topic ≠ some p) :
    mqtt_publish false st topic p q r true =
      ({ st with payload_cache_by_topic := alistSet st.payload_cache_by_topic topic p }, true) := by
  simp [mqtt_publish, transmit, h]

/-- Witness for the cache-before-transmit theorem at a concrete input. -/
theorem mqtt_publish_cache_updated_before_transmit_witness :
    mqtt_publish false ⟨[], []⟩ "t" (Payload.str "p") 1 true true =
      ({ payload_cache_by_topic := [("t", Payload.str "p")], sent := [] }, true) := by
  have h := mqtt_publish_cache_updated_before_transmit ⟨[], []⟩ "t" (Payload.str "p") 1 true
    (by decide)
  simpa [alistSet] using h

/-- C8: the sensor payload's instantaneous power equals the raw Sta_ODPwrCon
reading exactly when the three signals (power-set flag == 1, is_on property,
raw reading > 0) all agree; whenever any one disagrees it is 0 — in
particular a positive raw reading is reported iff the flags are on, and a
device with both flags on but a zero raw reading reports 0. -/
theorem reported_power_conservatism (a : Aircond) :
    (reported_power a =
      if (a.shadowState.Set_OnOff == 1) && a.is_on && decide (0 < a.shadowState.Sta_ODPwrCon)
      then a.shadowState.Sta_ODPwrCon else 0) ∧
    (0 < a.shadowState.Sta_ODPwrCon →
      (reported_power a = a.shadowState.Sta_ODPwrCon ↔
        (a.shadowState.Set_OnOff = 1 ∧ a.is_on = true))) ∧
    (a.shadowState.Set_OnOff = 1 → a.is_on = true → a.shadowState.Sta_ODPwrCon = 0 →
      reported_power a = 0) := by
  refine ⟨?_, ?_, ?_⟩
  · by_cases h1 : a.shadowState.Set_OnOff = 1 <;>
      by_cases h2 : 0 < a.shadowState.Sta_ODPwrCon <;>
        simp [reported_power, Aircond.is_on, h1, h2]
  · intro hp
    by_cases h1 : a.shadowState.Set_OnOff = 1
    · simp [reported_power, Aircond.is_on, h1, hp]
    · simp [reported_power, Aircond.is_on, h1, hp]
      omega
  · intro h1 _ h3
    simp [reported_power, Aircond.is_on, h1, h3]

/-- Witness for the power conservatism theorem: a drawing device reports its
raw power, and a device with flags on but zero raw draw reports 0. -/
theorem reported_power_conservatism_witness :
    reported_power { ThingName := "t1", shadowState := { Set_OnOff := 1, Sta_ODPwrCon := 500 } }
      = 500 ∧
    reported_power { ThingName := "t2", shadowState := { Set_OnOff := 1, Sta_ODPwrCon := 0 } }
      = 0 := by
  constructor
  · exact ((reported_power_conservatism
      { ThingName := "t1", shadowState := { Set_OnOff := 1, Sta_ODPwrCon := 500 } }).2.1
      (by decide)).mpr ⟨rfl, by decide⟩
  · exact (reported_power_conservatism
      { ThingName := "t2", shadowState := { Set_OnOff := 1, Sta_ODPwrCon := 0 } }).2.2
      rfl (by decide) rfl

/-- C9: the reported preset follows the fixed priority turbo > comfort > eco >
sleep > none over the four vendor flags (any nonzero flag counts as set), and
with turbo and eco simultaneously set the result is "boost", never "eco". -/
theorem derived_preset_priority (s : ShadowState) :
    (s.Set_Turbo ≠ 0 → derived_preset_mode s = "boost") ∧
    (s.Set_Turbo = 0 → s.Set_Breeze ≠ 0 → derived_preset_mode s = "comfort") ∧
    (s.Set_Turbo = 0 → s.Set_Breeze = 0 → s.Set_Ecoplus ≠ 0 →
      derived_preset_mode s = "eco") ∧
    (s.Set_Turbo = 0 → s.Set_Breeze = 0 → s.Set_Ecoplus = 0 → s.Set_Sleep ≠ 0 →
      derived_preset_mode s = "sleep") ∧
    (s.Set_Turbo = 0 → s.Set_Breeze = 0 → s.Set_Ecoplus = 0 → s.Set_Sleep = 0 →
      derived_preset_mode s = "none") ∧
    (s.Set_Turbo = 1 → s.Set_Ecoplus = 1 → derived_preset_mode s = "boost") := by
  refine ⟨?_, ?_, ?_, ?_, ?_, ?_⟩
  · intro h1
    simp [derived_preset_mode, AircondPreset.value, h1]
  · intro h1 h2
    simp [derived_preset_mode, AircondPreset.value, h1, h2]
  · intro h1 h2 h3
    simp [derived_preset_mode, AircondPreset.value, h1, h2, h3]
  · intro h1 h2 h3 h4
    simp [derived_preset_mode, AircondPreset.value, h1, h2, h3, h4]
  · intro h1 h2 h3 h4
    simp [derived_preset_mode, AircondPreset.value, h1, h2, h3, h4]
  · intro h1 _
    simp [derived_preset_mode, AircondPreset.value, h1]

/-- Witness for the preset priority theorem: turbo=1 and eco=1 yields "boost". -/
theorem derived_preset_priority_witness :
    derived_preset_mode { Set_Turbo := 1, Set_Ecoplus := 1 } = "boost" := by
  exact (derived_preset_priority { Set_Turbo := 1, Set_Ecoplus := 1 }).2.2.2.2.2 rfl rfl

/-- C5: the first accumulate call for a device returns exactly 0 and records
the baseline timestamp; a subsequent call with the device actually on adds
exactly Sta_ODPwrCon/1000 * elapsed-hours to the stored total (and stores it);
a subsequent call with the device not actually on adds zero while still
advancing the baseline to now. -/
theorem accumulate_energy_semantics (ec : EnergyCounter) (now : Rat) (a : Aircond) :
    (ec.energy_accumulated_at_by_unique_id.lookup a.unique_id = none →
      (accumulate_energy_usage_for_aircond ec now a).1 = 0 ∧
      (accumulate_energy_usage_for_aircond ec now a).2.energy_accumulated_at_by_unique_id.lookup
          a.unique_id = some now) ∧
    (∀ t0, ec.energy_accumulated_at_by_unique_id.lookup a.unique_id = some t0 →
      is_actually_on_for_energy a = true →
      (accumulate_energy_usage_for_aircond ec now a).1 =
        (ec.energy_by_unique_id.lookup a.unique_id).getD 0 +
          ((a.shadowState.Sta_ODPwrCon : Rat) / 1000) * ((now - t0) / 3600) ∧
      (accumulate_energy_usage_for_aircond ec now a).2.energy_by_unique_id.lookup a.unique_id =
        some ((ec.energy_by_unique_id.lookup a.unique_id).getD 0 +
          ((a.shadowState.Sta_ODPwrCon : Rat) / 1000) * ((now - t0) / 3600))) ∧
    (∀ t0, ec.energy_accumulated_at_by_unique_id.lookup a.unique_id = some t0 →
      is_actually_on_for_energy a = false →
      (accumulate_energy_usage_for_aircond ec now a).1 =
        (ec.energy_by_unique_id.lookup a.unique_id).getD 0 ∧
      (accumulate_energy_usage_for_aircond ec now a).2.energy_accumulated_at_by_unique_id.lookup
          a.unique_id = some now) := by
  refine ⟨?_, ?_, ?_⟩
  · intro h
    simp [accumulate_energy_usage_for_aircond, h, alistSet_lookup_self]
  · intro t0 h hon
    simp [accumulate_energy_usage_for_aircond, h, hon, alistSet_lookup_self]
  · intro t0 h hoff
    simp [accumulate_energy_usage_for_aircond, h, hoff, alistSet_lookup_self]

/-- Witness for the accumulate semantics: a fresh device returns 0; a device on
at 1000 W for two hours (7200 s) with 2 kWh stored returns 4 kWh; an off
device with stored energy returns the stored total unchanged. -/
theorem accumulate_energy_semantics_witness :
    (accumulate_energy_usage_for_aircond ⟨[], []⟩ 100 acFresh).1 = 0 ∧
    (accumulate_energy_usage_for_aircond ecTwo 7200 acDrawing).1 = 4 ∧
    (accumulate_energy_usage_for_aircond ecTwo 7200 acIdle).1 = 2 := by
  refine ⟨?_, ?_, ?_⟩
  · exact ((accumulate_energy_semantics ⟨[], []⟩ 100 acFresh).1 (by decide)).1
  · have h := ((accumulate_energy_semantics ecTwo 7200 acDrawing).2.1 0
      (by decide) (by decide)).1
    rw [h]
    have hu : acDrawing.unique_id = "ac" := by decide
    rw [hu]
    norm_num [ecTwo, acDrawing, List.lookup]
  · have h := ((accumulate_energy_semantics ecTwo 7200 acIdle).2.2 0
      (by decide) (by decide)).1
    rw [h]
    have hu : acIdle.unique_id = "ac" := by decide
    rw [hu]
    norm_num [ecTwo, List.lookup]

/-- C6: for a device whose power flag is cleared (Set_OnOff = 0), reset zeroes
the stored cumulative total (given the stored total is the nonnegative value
the accumulator produces), and an accumulate call right after the reset
returns exactly 0. -/
theorem reset_then_accumulate_returns_zero (ec : EnergyCounter) (now : Rat) (a : Aircond)
    (hoff : a.shadowState.Set_OnOff = 0)
    (hnn : 0 ≤ (ec.energy_by_unique_id.lookup a.unique_id).getD 0) :
    get_energy_usage (reset_energy_if_off ec a) a.unique_id = 0 ∧
    (accumulate_energy_usage_for_aircond (reset_energy_if_off ec a) now a).1 = 0 := by
  have hon : a.is_on = false := by simp [Aircond.is_on, hoff]
  have hact : is_actually_on_for_energy a = false := by
    simp [is_actually_on_for_energy, hon]
  have hreset : get_energy_usage (reset_energy_if_off ec a) a.unique_id = 0 := by
    by_cases hpos : 0 < (ec.energy_by_unique_id.lookup a.unique_id).getD 0
    · simp [reset_energy_if_off, get_energy_usage, hon, hoff, hpos, alistSet_lookup_self]
    · have hz : (ec.energy_by_unique_id.lookup a.unique_id).getD 0 = 0 :=
        le_antisymm (not_lt.mp hpos) hnn
      simp [reset_energy_if_off, get_energy_usage, hon, hoff, hpos, hz]
  refine ⟨hreset, ?_⟩
  simp only [get_energy_usage] at hreset
  cases hb : (reset_energy_if_off ec a).energy_accumulated_at_by_unique_id.lookup a.unique_id with
  | none => simp [accumulate_energy_usage_for_aircond, hb]
  | some t0 => simp [accumulate_energy_usage_for_aircond, hb, hact, hreset]

/-- Witness for reset-then-accumulate at a device with 5 kWh previously stored. -/
theorem reset_then_accumulate_returns_zero_witness :
    get_energy_usage (reset_energy_if_off ecFive acOff) acOff.unique_id = 0 ∧
    (accumulate_energy_usage_for_aircond (reset_energy_if_off ecFive acOff) 200 acOff).1 = 0 := by
  exact reset_then_accumulate_returns_zero ecFive 200 acOff rfl (by decide)

/-- C4: the credential manager performs exactly one initial exchange on the
first call (state empty, and the fresh token outlives the buffer); a call
while expiry minus the buffer is still in the future performs zero exchanges
and returns the held identity token unchanged; a call once (expiry − buffer)
has passed performs exactly one refresh exchange carrying the stored refresh
token, and the replacement credential keeps that same refresh token. -/
theorem get_jwt_token_exchange_discipline (u p : String) (ir : InitAuthResult)
    (rr : Option RefreshAuthResult) (rr2 : RefreshAuthResult) (tok : CognitoToken)
    (now : Rat) :
    (EXPIRY_BUFFER < ir.ExpiresIn →
      get_jwt_token u p (some ir) rr none now =
        .ok (ir.IdToken,
          { access_token := ir.AccessToken, id_token := ir.IdToken,
            refresh_token := ir.RefreshToken, expires_at := now + ir.ExpiresIn },
          [AuthExchange.initial u p])) ∧
    (now + EXPIRY_BUFFER < tok.expires_at →
      get_jwt_token u p (some ir) rr (some tok) now = .ok (tok.id_token, tok, [])) ∧
    (tok.expires_at ≤ now + EXPIRY_BUFFER →
      get_jwt_token u p (some ir) (some rr2) (some tok) now =
        .ok (rr2.IdToken,
          { access_token := rr2.AccessToken, id_token := rr2.IdToken,
            refresh_token := tok.refresh_token, expires_at := now + rr2.ExpiresIn },
          [AuthExchange.refreshWith tok.refresh_token])) := by
  refine ⟨?_, ?_, ?_⟩
  · intro h
    have hx : ¬ (now + ir.ExpiresIn ≤ now + EXPIRY_BUFFER) := by
      intro hc
      have := le_of_add_le_add_left hc
      exact absurd h (not_lt.mpr this)
    simp [get_jwt_token, init_cognito_token, get_jwt_token_refresh_step, hx]
  · intro h
    simp [get_jwt_token, get_jwt_token_refresh_step, not_le.mpr h]
  · intro h
    simp [get_jwt_token, get_jwt_token_refresh_step, refresh_jwt_token, h]

/-- Witness for the credential manager at concrete tokens and times. -/
theorem get_jwt_token_exchange_discipline_witness :
    (get_jwt_token "u" "p" (some ⟨"at", "idt", "rt", 3600⟩) none none 0 =
      .ok ("idt", ⟨"at", "idt", "rt", (0 : Rat) + 3600⟩, [AuthExchange.initial "u" "p"])) ∧
    (get_jwt_token "u" "p" (some ⟨"at", "idt", "rt", 3600⟩) none
        (some ⟨"at0", "idt0", "rt0", 3600⟩) 0 =
      .ok ("idt0", ⟨"at0", "idt0", "rt0", 3600⟩, [])) ∧
    (get_jwt_token "u" "p" (some ⟨"at", "idt", "rt", 3600⟩) (some ⟨"at2", "idt2", 3600⟩)
        (some ⟨"at0", "idt0", "rt0", 100⟩) 0 =
      .ok ("idt2", ⟨"at2", "idt2", "rt0", (0 : Rat) + 3600⟩, [AuthExchange.refreshWith "rt0"])) := by
  refine ⟨?_, ?_, ?_⟩
  · exact (get_jwt_token_exchange_discipline "u" "p" ⟨"at", "idt", "rt", 3600⟩ none
      ⟨"at2", "idt2", 3600⟩ ⟨"at0", "idt0", "rt0", 3600⟩ 0).1 (by norm_num [EXPIRY_BUFFER])
  · exact (get_jwt_token_exchange_discipline "u" "p" ⟨"at", "idt", "rt", 3600⟩ none
      ⟨"at2", "idt2", 3600⟩ ⟨"at0", "idt0", "rt0", 3600⟩ 0).2.1 (by norm_num [EXPIRY_BUFFER])
  · exact (get_jwt_token_exchange_discipline "u" "p" ⟨"at", "idt", "rt", 3600⟩ none
      ⟨"at2", "idt2", 3600⟩ ⟨"at0", "idt0", "rt0", 100⟩ 0).2.2 (by norm_num [EXPIRY_BUFFER])

/-- C1 counterexample: an inbound set command with an unrecognized fan_mode
value raises an uncaught KeyError (so the preemption signal is never set), and
an inbound message with an unknown action kind is ignored without error but
does NOT set the preemption signal either — both contradicting the claim that
every malformed command is handled non-fatally with the signal still set. -/
theorem handle_malformed_counterexample :
    handle_set_message "fan_mode" "ac1" "whoosh" = Except.error "KeyError: FanSpeed" ∧
    handle_message "godaikin/ac1/blorp/mode" "cool" = Except.ok ([], false) := by
  exact ⟨rfl, rfl⟩

/-- C1 amended: an unknown mode string is logged and ignored (no API call) and
the preemption signal is still set; an unrecognized preset falls back to the
"none" preset (API call still made, signal set); an unknown set key falls
through silently with the signal still set; but an unrecognized fan_mode or
swing_mode value raises an uncaught KeyError, so the handler escalates and the
preemption signal is never set. -/
theorem handle_malformed_amended (uid payload : String) :
    (payload ≠ "off" → payload ≠ "cool" → payload ≠ "dry" → payload ≠ "fan_only" →
      handle_set_message "mode" uid payload = .ok ([], true)) ∧
    (AircondPreset.fromValue payload = none →
      handle_set_message "preset_mode" uid payload =
        .ok ([ApiCall.set_preset uid AircondPreset.NONE], true)) ∧
    (FanSpeed.fromName (pyUpper payload) = none →
      handle_set_message "fan_mode" uid payload = .error "KeyError: FanSpeed") ∧
    (AircondSwing.fromName (pyUpper payload) = none →
      handle_set_message "swing_mode" uid payload = .error "KeyError: AircondSwing") ∧
    (∀ key, key ∉ (["mode", "fan_mode", "preset_mode", "temperature", "swing_mode",
        "swing_horizontal_mode", "status_led"] : List String) →
      handle_set_message key uid payload = .ok ([], true)) := by
  refine ⟨?_, ?_, ?_, ?_, ?_⟩
  · intro h1 h2 h3 h4
    have hm : handle_set_mode uid payload = .ok [] := by
      unfold handle_set_mode
      split <;> simp_all
    simp [handle_set_message, hm]
  · intro h
    simp [handle_set_message, handle_set_preset_mode, h]
  · intro h
    simp [handle_set_message, handle_set_fan_mode, h]
  · intro h
    simp [handle_set_message, handle_set_swing, h]
  · intro key hk
    simp only [List.mem_cons, List.not_mem_nil, or_false, not_or] at hk
    obtain ⟨k1, k2, k3, k4, k5, k6, k7⟩ := hk
    simp [handle_set_message, k1, k2, k3, k4, k5, k6, k7]

/-- Witness for the amended malformed-command behavior at concrete payloads. -/
theorem handle_malformed_amended_witness :
    handle_set_message "mode" "ac1" "heat" = .ok ([], true) ∧
    handle_set_message "preset_mode" "ac1" "turbo" =
      .ok ([ApiCall.set_preset "ac1" AircondPreset.NONE], true) ∧
    handle_set_message "swing_mode" "ac1" "diagonal" = .error "KeyError: AircondSwing" ∧
    handle_set_message "brightness" "ac1" "5" = .ok ([], true) := by
  refine ⟨?_, ?_, ?_, ?_⟩
  · exact (handle_malformed_amended "ac1" "heat").1 (by decide) (by decide) (by decide)
      (by decide)
  · exact (handle_malformed_amended "ac1" "turbo").2.1 rfl
  · exact (handle_malformed_amended "ac1" "diagonal").2.2.2.1 rfl
  · exact (handle_malformed_amended "ac1" "5").2.2.2.2 "brightness" (by decide)

/-- C2 counterexample: deriving the control-state payload for a powered-on
device whose vendor mode code (3) is outside the known enumeration raises a
ValueError instead of treating the mode as unknown — the publish crashes. -/
theorem publish_unknown_mode_counterexample :
    publish_aircond_state (get_mqtt_topics [] acBadMode).2 true ⟨[], []⟩ acBadMode =
      .error "ValueError: AircondMode" := by
  rfl

/-- C2 amended: the Aircond.mode property does treat an unknown mode code as
"Unknown" without raising, but publish_aircond_state maps the code through the
bare enum constructor, so for a powered-on device with an unknown mode code
the control-state publish raises ValueError rather than publishing an unknown
mode. -/
theorem publish_unknown_mode_raises (m : List (String × AircondMqttTopics)) (busOk : Bool)
    (st : PublishState) (a : Aircond) (t : AircondMqttTopics)
    (hm : m.lookup a.unique_id = some t) (hon : a.is_on = true)
    (hmode : AircondMode.fromValue a.shadowState.Set_Mode = none) :
    publish_aircond_state m busOk st a = .error "ValueError: AircondMode" ∧
    Aircond.mode a = "Unknown" := by
  constructor
  · simp [publish_aircond_state, hm, derived_mode, hon, hmode]
  · simp [Aircond.mode, hmode]

/-- Witness for the amended unknown-mode behavior at the concrete bad-mode
device registered in the topics map. -/
theorem publish_unknown_mode_raises_witness :
    publish_aircond_state (get_mqtt_topics [] acBadMode).2 true ⟨[], []⟩ acBadMode =
      .error "ValueError: AircondMode" ∧
    Aircond.mode acBadMode = "Unknown" := by
  exact publish_unknown_mode_raises (get_mqtt_topics [] acBadMode).2 true ⟨[], []⟩ acBadMode
    (AircondMqttTopics.from_aircond acBadMode) rfl rfl rfl

/-- C10: publishing a device's control-state or sensor payload does a direct
lookup of the device's unique_id in the topics map and fails with a KeyError
when the entry is absent, which terminates the whole poll cycle; entries are
added to the map only by get_mqtt_topics (used during the startup discovery
pass). -/
theorem missing_topics_entry_keyerror (m : List (String × AircondMqttTopics)) (busOk : Bool)
    (st : PublishState) (ec : EnergyCounter) (now : Rat) (a : Aircond) (rest : List Aircond)
    (h : m.lookup a.unique_id = none) :
    publish_aircond_state m busOk st a = .error "KeyError: unique_id" ∧
    publish_sensor_state m busOk ec now st a = .error "KeyError: unique_id" ∧
    refresh_state m busOk now (a :: rest) ec st = .error "KeyError: unique_id" ∧
    (get_mqtt_topics m a).2.lookup a.unique_id = some (AircondMqttTopics.from_aircond a) := by
  refine ⟨?_, ?_, ?_, ?_⟩
  · simp [publish_aircond_state, h]
  · simp [publish_sensor_state, h]
  · simp [refresh_state, publish_aircond_state, h]
  · simp [get_mqtt_topics, h, alistSet_lookup_self]

/-- Witness for the missing-topics KeyError at a device absent from an empty
topics map. -/
theorem missing_topics_entry_keyerror_witness :
    publish_aircond_state [] true ⟨[], []⟩ acOff = .error "KeyError: unique_id" ∧
    publish_sensor_state [] true ⟨[], []⟩ 0 ⟨[], []⟩ acOff = .error "KeyError: unique_id" ∧
    refresh_state [] true 0 [acOff] ⟨[], []⟩ ⟨[], []⟩ = .error "KeyError: unique_id" ∧
    (get_mqtt_topics [] acOff).2.lookup acOff.unique_id =
      some (AircondMqttTopics.from_aircond acOff) := by
  exact missing_topics_entry_keyerror [] true ⟨[], []⟩ ⟨[], []⟩ 0 acOff [] rfl
